import Mathlib

/-
Verification of the nonlinear_solvers module (solvers.py): a shallow
embedding of newton_raphson, bisection and solve over exact rationals.
Real numbers of the source are modelled as rationals; the division in
Newton's iteration function is fallible (dividing by zero raises), and
exceptions are modelled by an explicit error type threaded through
Except.  The bisection loop of the source is not structurally bounded
(its cap is only checked after the loop), so its embedding takes an
explicit fuel argument and returns none when the fuel runs out; every
theorem about a terminating run supplies sufficient fuel.
-/

/-- Python's abs on rationals, written so that it evaluates by reduction. -/
def absQ (x : ℚ) : ℚ := if x < 0 then -x else x

/-- Failure kinds of the module: ConvergenceError (carrying the cap value
interpolated into its message), ValueError raised for an invalid bracket,
and ZeroDivisionError from the division in Newton's update. -/
inductive Err : Type
  | convergence (cap : ℤ)
  | invalidBracket
  | zeroDivision
deriving DecidableEq

instance {α β : Type} [DecidableEq α] [DecidableEq β] : DecidableEq (Except α β) :=
  fun a b =>
    match a, b with
    | .ok x, .ok y =>
        if h : x = y then .isTrue (by rw [h])
        else .isFalse (fun hh => h (Except.ok.inj hh))
    | .error e1, .error e2 =>
        if h : e1 = e2 then .isTrue (by rw [h])
        else .isFalse (fun hh => h (Except.error.inj hh))
    | .ok _, .error _ => .isFalse (fun hh => Except.noConfusion hh)
    | .error _, .ok _ => .isFalse (fun hh => Except.noConfusion hh)

/-- The while loop of newton_raphson (solvers.py lines 43 to 46).  State is
the triple of locals (r, x_r, x_r_plus_1); the loop runs while
abs(x_r_plus_1 - x_r) > eps and r < max_its, and each pass increments r,
shifts x_r and recomputes x_r_plus_1 = g(x_r) where g(x) = x - f(x)/df(x).
Evaluating g where df vanishes raises ZeroDivisionError.  On normal exit
the final values of the three locals are returned. -/
def nrLoop (f df : ℚ → ℚ) (eps : ℚ) (maxIts : ℤ) (r : ℤ) (x_r x_r_plus_1 : ℚ) :
    Except Err (ℤ × ℚ × ℚ) :=
  if h : absQ (x_r_plus_1 - x_r) > eps ∧ r < maxIts then
    if df x_r_plus_1 = 0 then .error .zeroDivision
    else nrLoop f df eps maxIts (r + 1) x_r_plus_1
      (x_r_plus_1 - f x_r_plus_1 / df x_r_plus_1)
  else .ok (r, x_r, x_r_plus_1)
termination_by (maxIts - r).toNat
decreasing_by omega

/-- Lines 39 to 41 of solvers.py followed by the loop: r = -1, x_r = x_0,
and one unconditional update x_r_plus_1 = g(x_0) before the loop test. -/
def newtonRun (f df : ℚ → ℚ) (x_0 eps : ℚ) (maxIts : ℤ) : Except Err (ℤ × ℚ × ℚ) :=
  if df x_0 = 0 then .error .zeroDivision
  else nrLoop f df eps maxIts (-1) x_0 (x_0 - f x_0 / df x_0)

/-- newton_raphson of solvers.py: run the loop, then raise
ConvergenceError(max_its) when the final r equals max_its, otherwise
return the final x_r_plus_1 (lines 47 to 49). -/
def newton_raphson (f df : ℚ → ℚ) (x_0 eps : ℚ) (maxIts : ℤ) : Except Err ℚ :=
  match newtonRun f df x_0 eps maxIts with
  | .error e => .error e
  | .ok (r, _, x_r_plus_1) =>
      if r = maxIts then .error (.convergence maxIts) else .ok x_r_plus_1

/-- The while loop of bisection (solvers.py lines 79 to 92), fueled.
State is (a, b, c, its); the loop runs while abs(f(c)) > eps.  Each pass
first raises ValueError when f(a) * f(b) >= 0, then recomputes
c = (a + b) / 2, breaks out of the loop when f(c) == 0 exactly (without
incrementing its), otherwise halves the bracket towards the sign change,
recomputes c and increments its.  On exit (normal or break) the pair
(c, its) is returned; none means the fuel ran out. -/
def bisectLoop (f : ℚ → ℚ) (eps : ℚ) : ℕ → ℚ → ℚ → ℚ → ℕ → Option (Except Err (ℚ × ℕ))
  | 0, _, _, _, _ => none
  | fuel + 1, a, b, c, its =>
    if absQ (f c) > eps then
      if f a * f b ≥ 0 then some (.error .invalidBracket)
      else
        if f ((a + b) / 2) = 0 then some (.ok ((a + b) / 2, its))
        else if f a * f ((a + b) / 2) < 0 then
          bisectLoop f eps fuel a ((a + b) / 2) ((a + (a + b) / 2) / 2) (its + 1)
        else
          bisectLoop f eps fuel ((a + b) / 2) b (((a + b) / 2 + b) / 2) (its + 1)
    else some (.ok (c, its))

/-- bisection of solvers.py: its = 0, c = (a + b) / 2, run the loop, then
raise ConvergenceError(max_its) when its >= max_its, otherwise return c
(lines 77 to 95). -/
def bisection (f : ℚ → ℚ) (a b eps : ℚ) (maxIts : ℤ) (fuel : ℕ) :
    Option (Except Err ℚ) :=
  match bisectLoop f eps fuel a b ((a + b) / 2) 0 with
  | none => none
  | some (.error e) => some (.error e)
  | some (.ok (c, its)) =>
      if (its : ℤ) ≥ maxIts then some (.error (.convergence maxIts))
      else some (.ok c)

/-- solve of solvers.py (lines 128 to 143): try newton_raphson; on its
ConvergenceError fall back to bisection on the bracket [x_0, x_1],
catching only ValueError there (in which case the function falls off its
end, returning no value, modelled as .ok none).  Every other failure
propagates.  The result is none when the bisection fuel ran out. -/
def solve (f df : ℚ → ℚ) (x_0 x_1 eps : ℚ) (maxItsN maxItsB : ℤ) (fuel : ℕ) :
    Option (Except Err (Option ℚ)) :=
  match newton_raphson f df x_0 eps maxItsN with
  | .ok rootN => some (.ok (some rootN))
  | .error (.convergence _) =>
      match bisection f x_0 x_1 eps maxItsB fuel with
      | none => none
      | some (.ok rootB) => some (.ok (some rootB))
      | some (.error .invalidBracket) => some (.ok none)
      | some (.error e) => some (.error e)
  | .error e => some (.error e)

/-- The identity objective, used as a concrete test function. -/
def idQ : ℚ → ℚ := fun x => x

/-- The constant one function, used as a concrete test function. -/
def oneQ : ℚ → ℚ := fun _ => 1

/-- The constant zero function, used as a concrete derivative. -/
def zeroQ : ℚ → ℚ := fun _ => 0

/-- The linear objective x - r whose root is r. -/
def fLin (r : ℚ) : ℚ → ℚ := fun x => x - r

/-- The objective x * x - 2 whose positive root is the square root of 2. -/
def fsq : ℚ → ℚ := fun x => x * x - 2

/-- A derivative that is nonzero at 0 but vanishes elsewhere, exhibiting a
division by zero at the second Newton update. -/
def dfStep : ℚ → ℚ := fun x => if x = 0 then 1 else 0

/-- A large constant objective, far from any root. -/
def bigConst : ℚ → ℚ := fun _ => 1000

/-- A huge constant derivative, making the Newton step tiny. -/
def bigSlope : ℚ → ℚ := fun _ => 1000000000

/-- Spec-side twin of the Newton loop, written from the words of the
specification (section 4.1): loop while abs(x_r_plus_1 - x_r) > eps and
r < max_its, incrementing r, shifting x_r and recomputing
x_r_plus_1 = g(x_r); if the loop exited because r equals max_its exactly,
fail with a ConvergenceError carrying the attempted iteration cap,
otherwise return x_r_plus_1. -/
def newtonSpecLoop (f df : ℚ → ℚ) (eps : ℚ) (maxIts : ℤ) (r : ℤ) (x_r x_r_plus_1 : ℚ) :
    Except Err ℚ :=
  if h : absQ (x_r_plus_1 - x_r) > eps ∧ r < maxIts then
    if df x_r_plus_1 = 0 then .error .zeroDivision
    else newtonSpecLoop f df eps maxIts (r + 1) x_r_plus_1
      (x_r_plus_1 - f x_r_plus_1 / df x_r_plus_1)
  else if r = maxIts then .error (.convergence maxIts) else .ok x_r_plus_1
termination_by (maxIts - r).toNat
decreasing_by omega

/-- Spec-side twin of newton_raphson, from the words of the specification:
initialize the iteration index r = -1, x_r = x_0, compute
x_r_plus_1 = g(x_r) once unconditionally, then run the loop. -/
def newtonSpec (f df : ℚ → ℚ) (x_0 eps : ℚ) (maxIts : ℤ) : Except Err ℚ :=
  if df x_0 = 0 then .error .zeroDivision
  else newtonSpecLoop f df eps maxIts (-1) x_0 (x_0 - f x_0 / df x_0)

/-- absQ agrees with the absolute value of the ordered field ℚ. -/
lemma absQ_eq_abs (x : ℚ) : absQ x = |x| := by
  unfold absQ
  by_cases h : x < 0
  · rw [if_pos h, abs_of_neg h]
  · rw [if_neg h, abs_of_nonneg (le_of_not_lt h)]

/-- When the loop test fails, the Newton loop exits with its current state. -/
lemma nrLoop_exit (f df : ℚ → ℚ) (eps : ℚ) (maxIts r : ℤ) (x_r x_r_plus_1 : ℚ)
    (hc : ¬ (absQ (x_r_plus_1 - x_r) > eps ∧ r < maxIts)) :
    nrLoop f df eps maxIts r x_r x_r_plus_1 = .ok (r, x_r, x_r_plus_1) := by
  rw [nrLoop]
  simp [hc]

/-- When the loop test holds and the derivative at the new iterate is
nonzero, the Newton loop takes one step. -/
lemma nrLoop_step (f df : ℚ → ℚ) (eps : ℚ) (maxIts r : ℤ) (x_r x_r_plus_1 : ℚ)
    (hc : absQ (x_r_plus_1 - x_r) > eps ∧ r < maxIts) (hd : df x_r_plus_1 ≠ 0) :
    nrLoop f df eps maxIts r x_r x_r_plus_1
      = nrLoop f df eps maxIts (r + 1) x_r_plus_1
          (x_r_plus_1 - f x_r_plus_1 / df x_r_plus_1) := by
  rw [nrLoop]
  simp [hc, hd]

/-- When the loop test holds but the derivative vanishes at the new
iterate, the Newton loop raises ZeroDivisionError. -/
lemma nrLoop_div (f df : ℚ → ℚ) (eps : ℚ) (maxIts r : ℤ) (x_r x_r_plus_1 : ℚ)
    (hc : absQ (x_r_plus_1 - x_r) > eps ∧ r < maxIts) (hd : df x_r_plus_1 = 0) :
    nrLoop f df eps maxIts r x_r x_r_plus_1 = .error .zeroDivision := by
  rw [nrLoop]
  simp [hc, hd]

/-- Post-processing the Newton loop state exactly as newton_raphson does
yields the spec-side loop, for any sufficiently large measure bound. -/
lemma nrLoop_spec_aux (f df : ℚ → ℚ) (eps : ℚ) (m : ℤ) :
    ∀ n : ℕ, ∀ r : ℤ, ∀ xr x1 : ℚ, (m - r).toNat ≤ n →
      (match nrLoop f df eps m r xr x1 with
        | .error e => .error e
        | .ok (rf, _, y) => if rf = m then .error (.convergence m) else .ok y)
      = newtonSpecLoop f df eps m r xr x1 := by
  intro n
  induction n with
  | zero =>
    intro r xr x1 hle
    have hc : ¬ (absQ (x1 - xr) > eps ∧ r < m) := by
      intro hc
      omega
    rw [nrLoop, newtonSpecLoop]
    simp [hc]
  | succ n ih =>
    intro r xr x1 hle
    rw [nrLoop, newtonSpecLoop]
    by_cases hc : absQ (x1 - xr) > eps ∧ r < m
    · by_cases hd : df x1 = 0
      · simp [hc, hd]
      · simp only [hc, hd, dif_pos, if_neg, ite_false]
        exact ih (r + 1) x1 (x1 - f x1 / df x1) (by omega)
    · simp [hc]

/-- A normally returned Newton loop value is g of the previous iterate and
within eps of it, provided the index never exceeds the cap. -/
lemma nrLoop_ok_inv (f df : ℚ → ℚ) (eps : ℚ) (m : ℤ) :
    ∀ n : ℕ, ∀ r : ℤ, ∀ xr x1 : ℚ, (m - r).toNat ≤ n → r ≤ m →
      df xr ≠ 0 → x1 = xr - f xr / df xr →
      ∀ rf xf y, nrLoop f df eps m r xr x1 = .ok (rf, xf, y) → rf ≠ m →
      ∃ xp, df xp ≠ 0 ∧ y = xp - f xp / df xp ∧ absQ (y - xp) ≤ eps := by
  intro n
  induction n with
  | zero =>
    intro r xr x1 hle hrm hdf hx1 rf xf y hok hne
    have hc : ¬ (absQ (x1 - xr) > eps ∧ r < m) := by
      intro hc
      omega
    rw [nrLoop_exit f df eps m r xr x1 hc] at hok
    have hrf : rf = r := by
      cases hok
      rfl
    omega
  | succ n ih =>
    intro r xr x1 hle hrm hdf hx1 rf xf y hok hne
    by_cases hc : absQ (x1 - xr) > eps ∧ r < m
    · by_cases hd : df x1 = 0
      · rw [nrLoop_div f df eps m r xr x1 hc hd] at hok
        cases hok
      · rw [nrLoop_step f df eps m r xr x1 hc hd] at hok
        exact ih (r + 1) x1 (x1 - f x1 / df x1) (by omega) (by omega) hd rfl
          rf xf y hok hne
    · rw [nrLoop_exit f df eps m r xr x1 hc] at hok
      have hry : rf = r ∧ xf = xr ∧ y = x1 := by
        cases hok
        exact ⟨rfl, rfl, rfl⟩
      obtain ⟨hr1, _, hy1⟩ := hry
      have hrlt : r < m := by omega
      have hstep : ¬ absQ (x1 - xr) > eps := fun hgt => hc ⟨hgt, hrlt⟩
      exact ⟨xr, hdf, by rw [hy1, hx1], by rw [hy1]; exact le_of_not_lt hstep⟩

/-- With max_its = 0 and a first update that moves by more than eps, and a
derivative nonzero at the start and at the first iterate, newton_raphson
raises ConvergenceError carrying the cap 0. -/
lemma newton_cap0 (f df : ℚ → ℚ) (x_0 eps : ℚ) (h0 : df x_0 ≠ 0)
    (h1 : df (x_0 - f x_0 / df x_0) ≠ 0)
    (h2 : absQ (x_0 - f x_0 / df x_0 - x_0) > eps) :
    newton_raphson f df x_0 eps 0 = .error (.convergence 0) := by
  unfold newton_raphson newtonRun
  rw [if_neg h0, nrLoop_step f df eps 0 (-1) x_0 _ ⟨h2, by norm_num⟩ h1,
    nrLoop_exit f df eps 0 (-1 + 1) _ _ (by intro hcc; omega)]
  norm_num

/-- When the loop test fails at entry, the bisection loop exits at once
with its current midpoint and counter. -/
lemma bisectLoop_exit (f : ℚ → ℚ) (eps a b c : ℚ) (its : ℕ) (fuel : ℕ)
    (hf : 0 < fuel) (hc : ¬ absQ (f c) > eps) :
    bisectLoop f eps fuel a b c its = some (.ok (c, its)) := by
  obtain ⟨k, rfl⟩ : ∃ k, fuel = k + 1 := ⟨fuel - 1, by omega⟩
  simp [bisectLoop, hc]

/-- When the loop is entered on a bracket whose endpoint values do not
differ in sign, the bisection loop raises ValueError immediately. -/
lemma bisectLoop_invalid (f : ℚ → ℚ) (eps a b c : ℚ) (its : ℕ) (fuel : ℕ)
    (hf : 0 < fuel) (hc : absQ (f c) > eps) (hs : f a * f b ≥ 0) :
    bisectLoop f eps fuel a b c its = some (.error .invalidBracket) := by
  obtain ⟨k, rfl⟩ : ∃ k, fuel = k + 1 := ⟨fuel - 1, by omega⟩
  simp [bisectLoop, hc, hs]

/-- When the loop is entered on a valid bracket and f vanishes exactly at
the recomputed midpoint, the loop breaks out, returning that midpoint with
the counter not incremented. -/
lemma bisectLoop_break (f : ℚ → ℚ) (eps a b c : ℚ) (its : ℕ) (fuel : ℕ)
    (hf : 0 < fuel) (hc : absQ (f c) > eps) (hs : ¬ f a * f b ≥ 0)
    (hz : f ((a + b) / 2) = 0) :
    bisectLoop f eps fuel a b c its = some (.ok ((a + b) / 2, its)) := by
  obtain ⟨k, rfl⟩ : ∃ k, fuel = k + 1 := ⟨fuel - 1, by omega⟩
  simp [bisectLoop, hc, hs, hz]

/-- Bisection on a bracket with same-signed endpoint values raises
ValueError whenever its loop is entered at all. -/
lemma bisection_invalid (f : ℚ → ℚ) (a b eps : ℚ) (maxIts : ℤ) (fuel : ℕ)
    (hf : 0 < fuel) (hs : f a * f b ≥ 0) (hc : absQ (f ((a + b) / 2)) > eps) :
    bisection f a b eps maxIts fuel = some (.error .invalidBracket) := by
  unfold bisection
  rw [bisectLoop_invalid f eps a b ((a + b) / 2) 0 fuel hf hc hs]

/-- When the loop is entered on a valid bracket, the midpoint is not an
exact root and the sign change is in the left half, the loop recurses with
b moved to the midpoint. -/
lemma bisectLoop_left (f : ℚ → ℚ) (eps a b c : ℚ) (its : ℕ) (fuel : ℕ)
    (hf : 0 < fuel) (hc : absQ (f c) > eps) (hs : ¬ f a * f b ≥ 0)
    (hz : f ((a + b) / 2) ≠ 0) (hlt : f a * f ((a + b) / 2) < 0) :
    bisectLoop f eps fuel a b c its
      = bisectLoop f eps (fuel - 1) a ((a + b) / 2) ((a + (a + b) / 2) / 2) (its + 1) := by
  obtain ⟨k, rfl⟩ : ∃ k, fuel = k + 1 := ⟨fuel - 1, by omega⟩
  simp [bisectLoop, hc, hs, hz, hlt]

/-- When the loop is entered on a valid bracket, the midpoint is not an
exact root and the sign change is not in the left half, the loop recurses
with a moved to the midpoint. -/
lemma bisectLoop_right (f : ℚ → ℚ) (eps a b c : ℚ) (its : ℕ) (fuel : ℕ)
    (hf : 0 < fuel) (hc : absQ (f c) > eps) (hs : ¬ f a * f b ≥ 0)
    (hz : f ((a + b) / 2) ≠ 0) (hge : ¬ f a * f ((a + b) / 2) < 0) :
    bisectLoop f eps fuel a b c its
      = bisectLoop f eps (fuel - 1) ((a + b) / 2) b (((a + b) / 2 + b) / 2) (its + 1) := by
  obtain ⟨k, rfl⟩ : ∃ k, fuel = k + 1 := ⟨fuel - 1, by omega⟩
  simp [bisectLoop, hc, hs, hz, hge]

/-- Helper: Newton on the large constant objective with huge slope stops
immediately (the first update moves by only 1/1000000) at a point whose
objective value 1000 is far from zero. -/
lemma newton_bigRun :
    newton_raphson bigConst bigSlope 0 (1/100000) 20 = .ok (-(1/1000000)) := by
  unfold newton_raphson newtonRun
  norm_num [bigConst, bigSlope]
  rw [nrLoop_exit bigConst bigSlope (1/100000) 20 (-1) 0 (-(1/1000000))
    (by intro hcc; norm_num [absQ] at hcc)]
  norm_num

/-- C1: solve catches exactly two failure kinds.  Newton success is
returned at once; a ConvergenceError from newton_raphson triggers the
bisection fallback on the bracket [x_0, x_1]; an invalid-bracket
ValueError from that bisection call is caught and yields no return value;
every other failure — a ZeroDivisionError from Newton, or a
ConvergenceError raised by bisection itself — propagates unhandled to the
caller of solve. -/
theorem solve_error_routing (f df : ℚ → ℚ) (x_0 x_1 eps : ℚ)
    (maxItsN maxItsB : ℤ) (fuel : ℕ) :
    (∀ y, newton_raphson f df x_0 eps maxItsN = .ok y →
      solve f df x_0 x_1 eps maxItsN maxItsB fuel = some (.ok (some y)))
    ∧ (newton_raphson f df x_0 eps maxItsN = .error .zeroDivision →
      solve f df x_0 x_1 eps maxItsN maxItsB fuel = some (.error .zeroDivision))
    ∧ (∀ cap, newton_raphson f df x_0 eps maxItsN = .error (.convergence cap) →
      (∀ v, bisection f x_0 x_1 eps maxItsB fuel = some (.ok v) →
        solve f df x_0 x_1 eps maxItsN maxItsB fuel = some (.ok (some v)))
      ∧ (bisection f x_0 x_1 eps maxItsB fuel = some (.error .invalidBracket) →
        solve f df x_0 x_1 eps maxItsN maxItsB fuel = some (.ok none))
      ∧ (∀ cap2,
          bisection f x_0 x_1 eps maxItsB fuel = some (.error (.convergence cap2)) →
          solve f df x_0 x_1 eps maxItsN maxItsB fuel
            = some (.error (.convergence cap2)))
      ∧ (bisection f x_0 x_1 eps maxItsB fuel = none →
        solve f df x_0 x_1 eps maxItsN maxItsB fuel = none)) := by
  refine ⟨fun y hy => ?_, fun hz => ?_, fun cap hcap =>
    ⟨fun v hv => ?_, fun hb => ?_, fun cap2 hb2 => ?_, fun hn => ?_⟩⟩
  · unfold solve
    rw [hy]
  · unfold solve
    rw [hz]
  · unfold solve
    rw [hcap, hv]
  · unfold solve
    rw [hcap, hb]
  · unfold solve
    rw [hcap, hb2]
  · unfold solve
    rw [hcap, hn]

/-- C1 witness: on f = id with bracket [5, -3] and both caps 0, Newton
raises ConvergenceError, the bisection fallback itself raises
ConvergenceError, and solve propagates the latter unchanged. -/
theorem solve_error_routing_witness :
    newton_raphson idQ oneQ 5 (1/100000) 0 = .error (.convergence 0)
      ∧ bisection idQ 5 (-3) (1/100000) 0 3 = some (.error (.convergence 0))
      ∧ solve idQ oneQ 5 (-3) (1/100000) 0 0 3 = some (.error (.convergence 0)) := by
  have hN : newton_raphson idQ oneQ 5 (1/100000) 0 = .error (.convergence 0) := by
    apply newton_cap0 <;> norm_num [idQ, oneQ, absQ]
  have hB : bisection idQ 5 (-3) (1/100000) 0 3 = some (.error (.convergence 0)) := by
    unfold bisection
    have t0 : bisectLoop idQ (1/100000) 3 5 (-3) ((5 + -3) / 2) 0
        = bisectLoop idQ (1/100000) 2 1 (-3) (-1) 1 := by
      rw [bisectLoop_right idQ (1/100000) 5 (-3) ((5 + -3) / 2) 0 3 (by norm_num)
        (by norm_num [idQ, absQ]) (by norm_num [idQ]) (by norm_num [idQ])
        (by norm_num [idQ])]
      norm_num
    have t1 : bisectLoop idQ (1/100000) 2 1 (-3) (-1) 1
        = bisectLoop idQ (1/100000) 1 1 (-1) 0 2 := by
      rw [bisectLoop_left idQ (1/100000) 1 (-3) (-1) 1 2 (by norm_num)
        (by norm_num [idQ, absQ]) (by norm_num [idQ]) (by norm_num [idQ])
        (by norm_num [idQ])]
      norm_num
    have t2 : bisectLoop idQ (1/100000) 1 1 (-1) 0 2 = some (.ok (0, 2)) :=
      bisectLoop_exit idQ (1/100000) 1 (-1) 0 2 1 (by norm_num)
        (by norm_num [idQ, absQ])
    rw [t0, t1, t2]
    norm_num
  exact ⟨hN, hB,
    ((solve_error_routing idQ oneQ 5 (-3) (1/100000) 0 0 3).2.2 0 hN).2.2.1 0 hB⟩

/-- C2: newton_raphson iterates x to x - f(x)/df(x) with the index r
starting at -1 and one unconditional update before the loop test, loops
while abs(x_r_plus_1 - x_r) > eps and r < max_its, and on loop exit raises
ConvergenceError carrying the cap exactly when r equals max_its, otherwise
returns x_r_plus_1: the embedded source function agrees at every input
with the function transcribed from the words of the specification. -/
theorem newton_raphson_matches_spec (f df : ℚ → ℚ) (x_0 eps : ℚ) (maxIts : ℤ) :
    newton_raphson f df x_0 eps maxIts = newtonSpec f df x_0 eps maxIts := by
  unfold newton_raphson newtonRun newtonSpec
  by_cases hd : df x_0 = 0
  · rw [if_pos hd, if_pos hd]
  · rw [if_neg hd, if_neg hd]
    exact nrLoop_spec_aux f df eps maxIts (maxIts + 1).toNat (-1) x_0 _ (by omega)

/-- C3 counterexample: with f = id on [-1, 1], eps = -1 and max_its = 0,
the loop is entered and f vanishes exactly at the first in-loop midpoint
0, yet bisection raises ConvergenceError instead of returning that
midpoint: the post-loop cap check also applies to the early-exit path. -/
theorem bisection_break_counterexample :
    bisection idQ (-1) 1 (-1) 0 1 = some (.error (.convergence 0))
      ∧ bisection idQ (-1) 1 (-1) 0 1 ≠ some (.ok ((-1 + 1) / 2)) := by
  have hrun : bisection idQ (-1) 1 (-1) 0 1 = some (.error (.convergence 0)) := by
    unfold bisection
    rw [bisectLoop_break idQ (-1) (-1) 1 ((-1 + 1) / 2) 0 1 (by norm_num)
      (by norm_num [idQ, absQ]) (by norm_num [idQ]) (by norm_num [idQ])]
    norm_num
  exact ⟨hrun, by rw [hrun]; simp⟩

/-- C3 amended: for every f, a, b, eps with max_its = 0, when the loop is
entered on a valid bracket and f is exactly 0 at the midpoint recomputed
inside the loop body, bisection leaves the loop without incrementing its
iteration counter, but the cap check after the loop still fires (0 is at
least max_its = 0), so it raises ConvergenceError carrying cap 0 rather
than returning the midpoint. -/
theorem bisection_break_cap0 (f : ℚ → ℚ) (a b eps : ℚ) (fuel : ℕ)
    (hf : 0 < fuel) (hc : absQ (f ((a + b) / 2)) > eps) (hs : f a * f b < 0)
    (hz : f ((a + b) / 2) = 0) :
    bisection f a b eps 0 fuel = some (.error (.convergence 0)) := by
  unfold bisection
  rw [bisectLoop_break f eps a b ((a + b) / 2) 0 fuel hf hc (not_le.mpr hs) hz]
  norm_num

/-- C3 witness: the amended behaviour at f = id on [-1, 1] with eps = -1. -/
theorem bisection_break_cap0_witness :
    (0 : ℕ) < 1 ∧ absQ (idQ ((-1 + 1) / 2)) > (-1 : ℚ) ∧ idQ (-1) * idQ 1 < 0
      ∧ idQ ((-1 + 1) / 2) = 0
      ∧ bisection idQ (-1) 1 (-1) 0 1 = some (.error (.convergence 0)) :=
  ⟨by norm_num, by norm_num [idQ, absQ], by norm_num [idQ], by norm_num [idQ],
    bisection_break_cap0 idQ (-1) 1 (-1) 1 (by norm_num) (by norm_num [idQ, absQ])
      (by norm_num [idQ]) (by norm_num [idQ])⟩

/-- C4 counterexample: with derivative identically zero (and f constant 1,
so f(x_0) and f(x_1) share a sign) and max_its_n = 0, Newton's very first
update divides by zero, and solve propagates that ZeroDivisionError to its
caller rather than yielding an absent result. -/
theorem solve_df_zero_counterexample :
    solve oneQ zeroQ 0 1 (1/100000) 0 20 1 = some (.error .zeroDivision)
      ∧ solve oneQ zeroQ 0 1 (1/100000) 0 20 1 ≠ some (.ok none) := by
  have hrun : solve oneQ zeroQ 0 1 (1/100000) 0 20 1
      = some (.error .zeroDivision) := by
    norm_num [solve, newton_raphson, newtonRun, zeroQ]
  exact ⟨hrun, by rw [hrun]; simp⟩

/-- C4 amended: when Newton fails with a ConvergenceError (max_its_n = 0,
derivative nonzero at the two points where it is evaluated, first update
larger than eps) and the bisection bracket [x_0, x_1] has same-signed
endpoint values with its loop entered, solve catches the invalid-bracket
failure and yields no return value. -/
theorem solve_fallback_invalid_bracket_yields_none (f df : ℚ → ℚ)
    (x_0 x_1 eps : ℚ) (maxItsB : ℤ) (fuel : ℕ) (hf : 0 < fuel)
    (h0 : df x_0 ≠ 0) (h1 : df (x_0 - f x_0 / df x_0) ≠ 0)
    (h2 : absQ (x_0 - f x_0 / df x_0 - x_0) > eps)
    (hs : f x_0 * f x_1 ≥ 0) (hc : absQ (f ((x_0 + x_1) / 2)) > eps) :
    solve f df x_0 x_1 eps 0 maxItsB fuel = some (.ok none) := by
  unfold solve
  rw [newton_cap0 f df x_0 eps h0 h1 h2,
    bisection_invalid f x_0 x_1 eps maxItsB fuel hf hs hc]

/-- C4 witness: f and df constant 1 on the bracket [0, 1]. -/
theorem solve_fallback_invalid_bracket_yields_none_witness :
    (0 : ℕ) < 1 ∧ oneQ (0 : ℚ) ≠ 0 ∧ oneQ ((0 : ℚ) - oneQ 0 / oneQ 0) ≠ 0
      ∧ absQ ((0 : ℚ) - oneQ 0 / oneQ 0 - 0) > (1/100000 : ℚ)
      ∧ oneQ (0 : ℚ) * oneQ 1 ≥ 0
      ∧ absQ (oneQ (((0 : ℚ) + 1) / 2)) > (1/100000 : ℚ)
      ∧ solve oneQ oneQ 0 1 (1/100000) 0 20 1 = some (.ok none) :=
  ⟨by norm_num, by norm_num [oneQ], by norm_num [oneQ], by norm_num [oneQ, absQ],
    by norm_num [oneQ], by norm_num [oneQ, absQ],
    solve_fallback_invalid_bracket_yields_none oneQ oneQ 0 1 (1/100000) 20 1
      (by norm_num) (by norm_num [oneQ]) (by norm_num [oneQ])
      (by norm_num [oneQ, absQ]) (by norm_num [oneQ]) (by norm_num [oneQ, absQ])⟩

/-- C5 counterexample: f constant 1 with a derivative that is 1 at the
start but 0 at the first iterate -1.  The start is non-immediately
converged (the first update moves by 1), yet newton_raphson with
max_its = 0 raises ZeroDivisionError from the loop body, not
ConvergenceError. -/
theorem newton_cap0_counterexample :
    newton_raphson oneQ dfStep 0 (1/100000) 0 = .error .zeroDivision
      ∧ newton_raphson oneQ dfStep 0 (1/100000) 0 ≠ .error (.convergence 0) := by
  have hrun : newton_raphson oneQ dfStep 0 (1/100000) 0 = .error .zeroDivision := by
    unfold newton_raphson newtonRun
    norm_num [oneQ, dfStep]
    rw [nrLoop_div oneQ dfStep (1/100000) 0 (-1) 0 (-1)
      ⟨by norm_num [absQ], by norm_num⟩ (by norm_num [dfStep])]
  exact ⟨hrun, by rw [hrun]; simp⟩

/-- C5 amended: for every f, df, x_0, eps with the derivative nonzero at
x_0 and at the first iterate g(x_0), and a non-immediately-converged start
(the first update moves by more than eps), newton_raphson with max_its = 0
raises ConvergenceError. -/
theorem newton_cap0_nonconverged_raises (f df : ℚ → ℚ) (x_0 eps : ℚ)
    (h0 : df x_0 ≠ 0) (h1 : df (x_0 - f x_0 / df x_0) ≠ 0)
    (h2 : absQ (x_0 - f x_0 / df x_0 - x_0) > eps) :
    newton_raphson f df x_0 eps 0 = .error (.convergence 0) :=
  newton_cap0 f df x_0 eps h0 h1 h2

/-- C5 witness: f and df constant 1 started at 0. -/
theorem newton_cap0_nonconverged_raises_witness :
    oneQ (0 : ℚ) ≠ 0 ∧ oneQ ((0 : ℚ) - oneQ 0 / oneQ 0) ≠ 0
      ∧ absQ ((0 : ℚ) - oneQ 0 / oneQ 0 - 0) > (1/100000 : ℚ)
      ∧ newton_raphson oneQ oneQ 0 (1/100000) 0 = .error (.convergence 0) :=
  ⟨by norm_num [oneQ], by norm_num [oneQ], by norm_num [oneQ, absQ],
    newton_cap0_nonconverged_raises oneQ oneQ 0 (1/100000) (by norm_num [oneQ])
      (by norm_num [oneQ]) (by norm_num [oneQ, absQ])⟩

/-- C6: for every f, a, b with f(a) and f(b) of the same sign (their
product at least 0), bisection raises the invalid-bracket ValueError on
the first evaluation of the loop body (the loop being entered because the
initial midpoint is not yet within tolerance); the precondition is
validated lazily inside the loop, not up front. -/
theorem bisection_same_sign_raises_invalid (f : ℚ → ℚ) (a b eps : ℚ)
    (maxIts : ℤ) (fuel : ℕ) (hf : 0 < fuel) (hs : f a * f b ≥ 0)
    (hc : absQ (f ((a + b) / 2)) > eps) :
    bisection f a b eps maxIts fuel = some (.error .invalidBracket) :=
  bisection_invalid f a b eps maxIts fuel hf hs hc

/-- C6 witness: f constant 1 on [0, 1] with the default settings. -/
theorem bisection_same_sign_raises_invalid_witness :
    (0 : ℕ) < 1 ∧ oneQ 0 * oneQ 1 ≥ 0 ∧ absQ (oneQ ((0 + 1) / 2)) > (1/100000 : ℚ)
      ∧ bisection oneQ 0 1 (1/100000) 20 1 = some (.error .invalidBracket) :=
  ⟨by norm_num, by norm_num [oneQ], by norm_num [oneQ, absQ],
    bisection_same_sign_raises_invalid oneQ 0 1 (1/100000) 20 1 (by norm_num)
      (by norm_num [oneQ]) (by norm_num [oneQ, absQ])⟩

/-- C7 counterexample: for the linear objective with root r = 0 and the
default settings, the first unconditional update already lands within eps,
so the loop body never runs: the final iteration index is -1, meaning zero
loop iterations rather than exactly one, although the returned value is
still exactly the root. -/
theorem newton_linear_counterexample :
    newtonRun (fLin 0) oneQ 0 (1/100000) 20 = .ok (-1, 0, 0)
      ∧ newton_raphson (fLin 0) oneQ 0 (1/100000) 20 = .ok 0
      ∧ (-1 : ℤ) + 1 ≠ 1 := by
  have hrun : newtonRun (fLin 0) oneQ 0 (1/100000) 20 = .ok (-1, 0, 0) := by
    unfold newtonRun
    norm_num [fLin, oneQ]
    rw [nrLoop_exit (fLin 0) oneQ (1/100000) 20 (-1) 0 0
      (by intro hcc; norm_num [absQ] at hcc)]
    rfl
  refine ⟨hrun, ?_, by norm_num⟩
  unfold newton_raphson
  rw [hrun]
  norm_num

/-- C7 amended: for every r and every eps at least 0 (the default eps is
1/100000), newton_raphson on the linear objective x - r with unit
derivative, started at 0 with max_its = 20, returns exactly r, hence a
value within eps of r.  This takes exactly one loop iteration (final
index 0) when abs r > eps, and zero loop iterations (final index -1) when
abs r is already within eps. -/
theorem newton_linear_one_iteration (r eps : ℚ) (heps : 0 ≤ eps) :
    (absQ r > eps →
      newtonRun (fLin r) oneQ 0 eps 20 = .ok (0, r, r)
        ∧ newton_raphson (fLin r) oneQ 0 eps 20 = .ok r)
    ∧ (absQ r ≤ eps →
      newtonRun (fLin r) oneQ 0 eps 20 = .ok (-1, 0, r)
        ∧ newton_raphson (fLin r) oneQ 0 eps 20 = .ok r) := by
  have hx1 : (0 : ℚ) - fLin r 0 / oneQ 0 = r := by norm_num [fLin, oneQ]
  have hx2 : r - fLin r r / oneQ r = r := by norm_num [fLin, oneQ]
  constructor
  · intro hgt
    have hrun : newtonRun (fLin r) oneQ 0 eps 20 = .ok (0, r, r) := by
      unfold newtonRun
      rw [if_neg (by norm_num [oneQ]), hx1,
        nrLoop_step (fLin r) oneQ eps 20 (-1) 0 r
          ⟨by rw [sub_zero]; exact hgt, by norm_num⟩ (by norm_num [oneQ]), hx2,
        nrLoop_exit (fLin r) oneQ eps 20 (-1 + 1) r r
          (by
            intro hcc
            rw [sub_self] at hcc
            have h00 : absQ 0 = 0 := by norm_num [absQ]
            rw [h00] at hcc
            exact absurd hcc.1 (not_lt.mpr heps))]
      norm_num
    refine ⟨hrun, ?_⟩
    unfold newton_raphson
    rw [hrun]
    norm_num
  · intro hle
    have hrun : newtonRun (fLin r) oneQ 0 eps 20 = .ok (-1, 0, r) := by
      unfold newtonRun
      rw [if_neg (by norm_num [oneQ]), hx1,
        nrLoop_exit (fLin r) oneQ eps 20 (-1) 0 r
          (by intro hcc; rw [sub_zero] at hcc; exact absurd hcc.1 (not_lt.mpr hle))]
    refine ⟨hrun, ?_⟩
    unfold newton_raphson
    rw [hrun]
    norm_num

/-- C7 witness: the one-iteration branch at r = 1 with the default eps. -/
theorem newton_linear_one_iteration_witness :
    (0 : ℚ) ≤ 1/100000 ∧ absQ 1 > (1/100000 : ℚ)
      ∧ newtonRun (fLin 1) oneQ 0 (1/100000) 20 = .ok (0, 1, 1)
      ∧ newton_raphson (fLin 1) oneQ 0 (1/100000) 20 = .ok 1 := by
  have h := (newton_linear_one_iteration 1 (1/100000) (by norm_num)).1
    (by norm_num [absQ])
  exact ⟨by norm_num, by norm_num [absQ], h.1, h.2⟩

/-- C8: on f(x) = x * x - 2 with bracket [0, 2], eps = 1/100000 and
max_its = 20, bisection returns successfully after 15 counted iterations,
and the returned value 46341/32768 is within eps of the square root of 2. -/
theorem bisection_sqrt_two :
    bisection fsq 0 2 (1/100000) 20 30 = some (.ok (46341/32768))
      ∧ |((46341/32768 : ℚ) : ℝ) - Real.sqrt 2| ≤ 1/100000 := by
  constructor
  · unfold bisection
    have s0 : bisectLoop fsq (1/100000) 30 0 2 ((0 + 2) / 2) 0
        = bisectLoop fsq (1/100000) 30 0 2 1 0 := by norm_num
    have s1 : bisectLoop fsq (1/100000) 30 0 2 1 0
        = bisectLoop fsq (1/100000) 29 1 2 (3/2) 1 := by
      rw [bisectLoop_right fsq (1/100000) 0 2 1 0 30 (by norm_num)
        (by norm_num [fsq, absQ]) (by norm_num [fsq]) (by norm_num [fsq])
        (by norm_num [fsq])]
      norm_num
    have s2 : bisectLoop fsq (1/100000) 29 1 2 (3/2) 1
        = bisectLoop fsq (1/100000) 28 1 (3/2) (5/4) 2 := by
      rw [bisectLoop_left fsq (1/100000) 1 2 (3/2) 1 29 (by norm_num)
        (by norm_num [fsq, absQ]) (by norm_num [fsq]) (by norm_num [fsq])
        (by norm_num [fsq])]
      norm_num
    have s3 : bisectLoop fsq (1/100000) 28 1 (3/2) (5/4) 2
        = bisectLoop fsq (1/100000) 27 (5/4) (3/2) (11/8) 3 := by
      rw [bisectLoop_right fsq (1/100000) 1 (3/2) (5/4) 2 28 (by norm_num)
        (by norm_num [fsq, absQ]) (by norm_num [fsq]) (by norm_num [fsq])
        (by norm_num [fsq])]
      norm_num
    have s4 : bisectLoop fsq (1/100000) 27 (5/4) (3/2) (11/8) 3
        = bisectLoop fsq (1/100000) 26 (11/8) (3/2) (23/16) 4 := by
      rw [bisectLoop_right fsq (1/100000) (5/4) (3/2) (11/8) 3 27 (by norm_num)
        (by norm_num [fsq, absQ]) (by norm_num [fsq]) (by norm_num [fsq])
        (by norm_num [fsq])]
      norm_num
    have s5 : bisectLoop fsq (1/100000) 26 (11/8) (3/2) (23/16) 4
        = bisectLoop fsq (1/100000) 25 (11/8) (23/16) (45/32) 5 := by
      rw [bisectLoop_left fsq (1/100000) (11/8) (3/2) (23/16) 4 26 (by norm_num)
        (by norm_num [fsq, absQ]) (by norm_num [fsq]) (by norm_num [fsq])
        (by norm_num [fsq])]
      norm_num
    have s6 : bisectLoop fsq (1/100000) 25 (11/8) (23/16) (45/32) 5
        = bisectLoop fsq (1/100000) 24 (45/32) (23/16) (91/64) 6 := by
      rw [bisectLoop_right fsq (1/100000) (11/8) (23/16) (45/32) 5 25 (by norm_num)
        (by norm_num [fsq, absQ]) (by norm_num [fsq]) (by norm_num [fsq])
        (by norm_num [fsq])]
      norm_num
    have s7 : bisectLoop fsq (1/100000) 24 (45/32) (23/16) (91/64) 6
        = bisectLoop fsq (1/100000) 23 (45/32) (91/64) (181/128) 7 := by
      rw [bisectLoop_left fsq (1/100000) (45/32) (23/16) (91/64) 6 24 (by norm_num)
        (by norm_num [fsq, absQ]) (by norm_num [fsq]) (by norm_num [fsq])
        (by norm_num [fsq])]
      norm_num
    have s8 : bisectLoop fsq (1/100000) 23 (45/32) (91/64) (181/128) 7
        = bisectLoop fsq (1/100000) 22 (181/128) (91/64) (363/256) 8 := by
      rw [bisectLoop_right fsq (1/100000) (45/32) (91/64) (181/128) 7 23 (by norm_num)
        (by norm_num [fsq, absQ]) (by norm_num [fsq]) (by norm_num [fsq])
        (by norm_num [fsq])]
      norm_num
    have s9 : bisectLoop fsq (1/100000) 22 (181/128) (91/64) (363/256) 8
        = bisectLoop fsq (1/100000) 21 (181/128) (363/256) (725/512) 9 := by
      rw [bisectLoop_left fsq (1/100000) (181/128) (91/64) (363/256) 8 22 (by norm_num)
        (by norm_num [fsq, absQ]) (by norm_num [fsq]) (by norm_num [fsq])
        (by norm_num [fsq])]
      norm_num
    have s10 : bisectLoop fsq (1/100000) 21 (181/128) (363/256) (725/512) 9
        = bisectLoop fsq (1/100000) 20 (181/128) (725/512) (1449/1024) 10 := by
      rw [bisectLoop_left fsq (1/100000) (181/128) (363/256) (725/512) 9 21 (by norm_num)
        (by norm_num [fsq, absQ]) (by norm_num [fsq]) (by norm_num [fsq])
        (by norm_num [fsq])]
      norm_num
    have s11 : bisectLoop fsq (1/100000) 20 (181/128) (725/512) (1449/1024) 10
        = bisectLoop fsq (1/100000) 19 (181/128) (1449/1024) (2897/2048) 11 := by
      rw [bisectLoop_left fsq (1/100000) (181/128) (725/512) (1449/1024) 10 20 (by norm_num)
        (by norm_num [fsq, absQ]) (by norm_num [fsq]) (by norm_num [fsq])
        (by norm_num [fsq])]
      norm_num
    have s12 : bisectLoop fsq (1/100000) 19 (181/128) (1449/1024) (2897/2048) 11
        = bisectLoop fsq (1/100000) 18 (181/128) (2897/2048) (5793/4096) 12 := by
      rw [bisectLoop_left fsq (1/100000) (181/128) (1449/1024) (2897/2048) 11 19 (by norm_num)
        (by norm_num [fsq, absQ]) (by norm_num [fsq]) (by norm_num [fsq])
        (by norm_num [fsq])]
      norm_num
    have s13 : bisectLoop fsq (1/100000) 18 (181/128) (2897/2048) (5793/4096) 12
        = bisectLoop fsq (1/100000) 17 (181/128) (5793/4096) (11585/8192) 13 := by
      rw [bisectLoop_left fsq (1/100000) (181/128) (2897/2048) (5793/4096) 12 18 (by norm_num)
        (by norm_num [fsq, absQ]) (by norm_num [fsq]) (by norm_num [fsq])
        (by norm_num [fsq])]
      norm_num
    have s14 : bisectLoop fsq (1/100000) 17 (181/128) (5793/4096) (11585/8192) 13
        = bisectLoop fsq (1/100000) 16 (11585/8192) (5793/4096) (23171/16384) 14 := by
      rw [bisectLoop_right fsq (1/100000) (181/128) (5793/4096) (11585/8192) 13 17 (by norm_num)
        (by norm_num [fsq, absQ]) (by norm_num [fsq]) (by norm_num [fsq])
        (by norm_num [fsq])]
      norm_num
    have s15 : bisectLoop fsq (1/100000) 16 (11585/8192) (5793/4096) (23171/16384) 14
        = bisectLoop fsq (1/100000) 15 (11585/8192) (23171/16384) (46341/32768) 15 := by
      rw [bisectLoop_left fsq (1/100000) (11585/8192) (5793/4096) (23171/16384) 14 16 (by norm_num)
        (by norm_num [fsq, absQ]) (by norm_num [fsq]) (by norm_num [fsq])
        (by norm_num [fsq])]
      norm_num
    have s16 : bisectLoop fsq (1/100000) 15 (11585/8192) (23171/16384) (46341/32768) 15
        = some (.ok ((46341/32768), 15)) := by
      exact bisectLoop_exit fsq (1/100000) (11585/8192) (23171/16384) (46341/32768) 15 15 (by norm_num)
        (by norm_num [fsq, absQ])
    rw [s0, s1, s2, s3, s4, s5, s6, s7, s8, s9, s10, s11, s12, s13, s14, s15, s16]
    norm_num
  · have hub : Real.sqrt 2 ≤ (46341/32768 : ℝ) := by
      rw [show (46341/32768 : ℝ) = Real.sqrt ((46341/32768) ^ 2) from
        (Real.sqrt_sq (by norm_num)).symm]
      apply Real.sqrt_le_sqrt
      norm_num
    have hlb : (46341/32768 - 1/100000 : ℝ) ≤ Real.sqrt 2 := by
      rw [show (46341/32768 - 1/100000 : ℝ) = Real.sqrt ((46341/32768 - 1/100000) ^ 2) from
        (Real.sqrt_sq (by norm_num)).symm]
      apply Real.sqrt_le_sqrt
      norm_num
    rw [abs_le]
    constructor
    · push_cast
      linarith
    · push_cast
      linarith

/-- C9: whenever the endpoint values of the bracket share a sign but the
initial midpoint is already within eps and max_its is positive, bisection
returns that midpoint successfully and never raises the invalid-bracket
error, because the bracket check lives inside a loop body that is never
entered. -/
theorem bisection_converged_midpoint_skips_bracket_check (f : ℚ → ℚ)
    (a b eps : ℚ) (maxIts : ℤ) (fuel : ℕ) (hf : 0 < fuel) (hs : f a * f b ≥ 0)
    (hc : absQ (f ((a + b) / 2)) ≤ eps) (hm : 0 < maxIts) :
    bisection f a b eps maxIts fuel = some (.ok ((a + b) / 2)) := by
  unfold bisection
  rw [bisectLoop_exit f eps a b ((a + b) / 2) 0 fuel hf (not_lt.mpr hc)]
  have h0 : ¬ ((0 : ℕ) : ℤ) ≥ maxIts := by
    push_cast
    omega
  exact if_neg h0

/-- C9 witness: f constant 0 on [0, 1], an invalid bracket whose midpoint
is already a root. -/
theorem bisection_converged_midpoint_skips_bracket_check_witness :
    (0 : ℕ) < 1 ∧ zeroQ 0 * zeroQ 1 ≥ 0 ∧ absQ (zeroQ ((0 + 1) / 2)) ≤ (1/100000 : ℚ)
      ∧ (0 : ℤ) < 20 ∧ bisection zeroQ 0 1 (1/100000) 20 1 = some (.ok ((0 + 1) / 2)) :=
  ⟨by norm_num, by norm_num [zeroQ], by norm_num [zeroQ, absQ], by norm_num,
    bisection_converged_midpoint_skips_bracket_check zeroQ 0 1 (1/100000) 20 1
      (by norm_num) (by norm_num [zeroQ]) (by norm_num [zeroQ, absQ]) (by norm_num)⟩

/-- C10 counterexample: with max_its = -2 the loop condition r < max_its
is false from the start and the cap test r == max_its also fails, so
newton_raphson returns the first update unconditionally: on f = id from
x_0 = 5 it returns 0, whose distance 5 from the previous iterate is far
more than eps, refuting the step-size guarantee for every max_its. -/
theorem newton_negative_cap_counterexample :
    newton_raphson idQ oneQ 5 (1/100000) (-2) = .ok 0
      ∧ ¬ absQ ((0 : ℚ) - 5) ≤ 1/100000 := by
  have hrun : newton_raphson idQ oneQ 5 (1/100000) (-2) = .ok 0 := by
    unfold newton_raphson newtonRun
    norm_num [idQ, oneQ]
    rw [nrLoop_exit idQ oneQ (1/100000) (-2) (-1) 5 0 (by intro hcc; omega)]
    norm_num
  exact ⟨hrun, by norm_num [absQ]⟩

/-- C10 amended: for max_its at least -1, whenever newton_raphson returns
a value normally, that value is the Newton update of some previous iterate
and lies within eps of it — a step-size guarantee; the returned value is
not guaranteed to satisfy abs (f x) < eps, as the run on the large
constant objective shows. -/
theorem newton_ok_step_size :
    (∀ f df : ℚ → ℚ, ∀ x_0 eps : ℚ, ∀ maxIts : ℤ, ∀ y : ℚ, -1 ≤ maxIts →
      newton_raphson f df x_0 eps maxIts = .ok y →
      ∃ xp, df xp ≠ 0 ∧ y = xp - f xp / df xp ∧ absQ (y - xp) ≤ eps)
    ∧ (newton_raphson bigConst bigSlope 0 (1/100000) 20 = .ok (-(1/1000000))
        ∧ absQ (bigConst (-(1/1000000))) ≥ 1/100000) := by
  constructor
  · intro f df x_0 eps maxIts y hm hok
    unfold newton_raphson newtonRun at hok
    by_cases hd : df x_0 = 0
    · rw [if_pos hd] at hok
      exact Except.noConfusion hok
    · rw [if_neg hd] at hok
      cases hres : nrLoop f df eps maxIts (-1) x_0 (x_0 - f x_0 / df x_0) with
      | error e =>
        rw [hres] at hok
        exact Except.noConfusion hok
      | ok t =>
        obtain ⟨rf, xf, y1⟩ := t
        rw [hres] at hok
        have hok2 : (if rf = maxIts then (.error (.convergence maxIts) : Except Err ℚ)
            else .ok y1) = .ok y := hok
        by_cases hrm : rf = maxIts
        · rw [if_pos hrm] at hok2
          exact Except.noConfusion hok2
        · rw [if_neg hrm] at hok2
          have hy : y1 = y := Except.ok.inj hok2
          obtain ⟨xp, hxp1, hxp2, hxp3⟩ := nrLoop_ok_inv f df eps maxIts
            (maxIts + 1).toNat (-1) x_0 (x_0 - f x_0 / df x_0) (by omega) (by omega)
            hd rfl rf xf y1 hres hrm
          exact ⟨xp, hxp1, by rw [← hy]; exact hxp2, by rw [← hy]; exact hxp3⟩
  · exact ⟨newton_bigRun, by norm_num [bigConst, absQ]⟩

/-- C10 witness: the step-size guarantee instantiated on the large
constant objective run, which returns normally under the default cap. -/
theorem newton_ok_step_size_witness :
    (-1 : ℤ) ≤ 20
      ∧ newton_raphson bigConst bigSlope 0 (1/100000) 20 = .ok (-(1/1000000))
      ∧ ∃ xp, bigSlope xp ≠ 0 ∧ -(1/1000000) = xp - bigConst xp / bigSlope xp
          ∧ absQ (-(1/1000000) - xp) ≤ 1/100000 :=
  ⟨by norm_num, newton_bigRun,
    newton_ok_step_size.1 bigConst bigSlope 0 (1/100000) 20 (-(1/1000000))
      (by norm_num) newton_bigRun⟩
